import Mathlib

set_option maxRecDepth 40000

/-!
# Verification of the contract-intelligence analytics core

Shallow embedding of the three analytics components of the repository
(`RenewalScoringEngine`, `UnderbillingDetector`, `RenewalRiskService`)
together with proofs of the specified properties.

Modelling conventions:
* currency amounts, scores and weights are rationals (`Rat`), matching the
  real-number arithmetic of the source;
* calendar instants are integers counting days (`Int`); `new Date()` becomes
  an explicit `now : Int` parameter threaded through every function that
  reads the clock;
* `Math.round x` is `⌊x + 1/2⌋` (JavaScript rounds half up);
* optional fields use `Option`;
* the two mutable registries are embedded by explicit state passing over
  `List` values; the registry mutators return the new registry.
* string `description` fields and the recommendation strings are
  presentation-only text (locale formatting of numbers); they are omitted
  from the embedded records because no verified property reads them.
-/

namespace ContractIntel

/-! ## Data model (src/models/types.ts) -/

inductive ContractStatus where
  | active | pending | expired | cancelled | renewed
  deriving DecidableEq, Repr

inductive BillingFrequency where
  | monthly | quarterly | annually | one_time
  deriving DecidableEq, Repr

inductive InvoiceStatus where
  | draft | sent | paid | overdue | void
  | partly  -- the source's PARTIAL status string
  deriving DecidableEq, Repr

inductive SubscriptionStatus where
  | active | suspended | cancelled | expired
  deriving DecidableEq, Repr

inductive RiskLevel where
  | low | medium | high | critical
  deriving DecidableEq, Repr

inductive Impact where
  | positive | negative | neutral
  deriving DecidableEq, Repr

structure Contract where
  id : String
  customerId : String
  customerName : String
  contractNumber : String
  startDate : Int
  endDate : Int
  renewalDate : Int
  totalValue : Rat
  currency : String
  status : ContractStatus
  billingFrequency : BillingFrequency
  autoRenewal : Bool
  deriving DecidableEq, Repr

structure Invoice where
  id : String
  contractId : String
  invoiceNumber : String
  customerId : String
  amount : Rat
  currency : String
  dueDate : Int
  paidDate : Option Int
  status : InvoiceStatus
  createdAt : Int
  deriving DecidableEq, Repr

structure Subscription where
  id : String
  contractId : String
  customerId : String
  productId : String
  productName : String
  quantity : Rat
  unitPrice : Rat
  totalPrice : Rat
  usageAmount : Option Rat
  usageLimit : Option Rat
  startDate : Int
  endDate : Int
  status : SubscriptionStatus
  deriving DecidableEq, Repr

structure ScoreFactor where
  name : String
  weight : Rat
  value : Rat
  impact : Impact
  deriving DecidableEq, Repr

structure RenewalHealthScore where
  contractId : String
  customerId : String
  score : Int
  riskLevel : RiskLevel
  factors : List ScoreFactor
  calculatedAt : Int
  deriving DecidableEq, Repr

/-! ## Shared helpers

`src/utils/helpers.ts` is absent from the repository snapshot; only its unit
tests, its import sites and the spec describe it.  The helper functions below
are therefore modelled from the spec. -/

/-- Modelled from the spec: missing `src/utils/helpers.ts`, `daysBetween`.
Days from `d1` to `d2`; negative when `d2` precedes `d1`, zero on the same
day (spec §4.1 "daysLate = paidDate − dueDate in days", may be negative). -/
def daysBetween (d1 d2 : Int) : Int := d2 - d1

/-- Modelled from the spec: missing `src/utils/helpers.ts`, `clamp`.
Clamps a value into `[lo, hi]` (spec §4.1 "clamp to [0,100]"). -/
def clamp (v lo hi : Rat) : Rat := min (max v lo) hi

/-- Modelled from the spec: missing `src/utils/helpers.ts`,
`calculatePercentage`.  Spec §4.1: the usage percentage is
`usageAmount/usageLimit×100`; the zero-total guard returns `0` (spec §7:
the helper "returns 0 when the total is 0" instead of dividing by zero). -/
def calculatePercentage (value total : Rat) : Rat :=
  if total = 0 then 0 else value * 100 / total

/-- Modelled from the spec: missing `src/utils/helpers.ts`, `isWithinDays`.
True when `target` lies between `now` and `now + days` (spec §4.3: "renewal
within 90 days"; past dates are not within range). -/
def isWithinDays (now target days : Int) : Bool :=
  0 ≤ target - now ∧ target - now ≤ days

/-- Modelled from the spec: missing `src/utils/helpers.ts`, `generateId`.
The source generates a fresh opaque identifier for every created alert or
risk; identifier generation is stateful and outside the pure embedding, so
created records carry this placeholder and the registry operations below
take identifiers as given. -/
def generateId : String := "generated-id"

/-- JavaScript `Math.round`: round half up. -/
def jsRound (q : Rat) : Int := ⌊q + 1 / 2⌋

/-! ## Scoring configuration (src/config/index.ts, `config.scoring`) -/

def invoiceOverdueWeight : Rat := 0.25
def usageDeclineWeight : Rat := 0.20
def contractValueWeight : Rat := 0.15
def renewalProximityWeight : Rat := 0.25
def riskThreshold : Int := 60
def criticalThreshold : Int := 40

/-! ## RenewalScoringEngine (src/scoring/renewalEngine.ts) -/

/-- Factor 1: Invoice Payment Status. -/
def calculateInvoiceFactor (invoices : List Invoice) : ScoreFactor :=
  if invoices = [] then
    { name := "Invoice Status", weight := invoiceOverdueWeight
      value := 100, impact := .neutral }
  else
    let overdueInvoices := invoices.filter (fun inv => inv.status = .overdue)
    let overdueCount : Nat := overdueInvoices.length
    let totalOverdueAmount : Rat := (overdueInvoices.map (fun inv => inv.amount)).sum
    let overdueRatio : Rat := (overdueCount : Rat) / (invoices.length : Rat)
    let base : Rat := 100 - overdueRatio * 100
    let penalized : Rat :=
      if totalOverdueAmount > 10000 then base - 20
      else if totalOverdueAmount > 5000 then base - 10
      else base
    let factorScore := clamp penalized 0 100
    { name := "Invoice Status", weight := invoiceOverdueWeight
      value := factorScore
      impact :=
        if factorScore ≥ 80 then .positive
        else if factorScore ≥ 50 then .neutral
        else .negative }

/-- Does a subscription carry both usage fields? -/
def hasUsageData (s : Subscription) : Bool :=
  s.usageAmount.isSome && s.usageLimit.isSome

/-- The usage percentage the engine computes for one subscription. -/
def usagePct (s : Subscription) : Rat :=
  calculatePercentage (s.usageAmount.getD 0) (s.usageLimit.getD 0)

/-- Factor 2: Usage/Engagement Trend. -/
def calculateUsageFactor (subscriptions : List Subscription) : ScoreFactor :=
  if subscriptions = [] then
    { name := "Usage Trend", weight := usageDeclineWeight
      value := 100, impact := .neutral }
  else
    let subsWithUsage := subscriptions.filter hasUsageData
    if subsWithUsage = [] then
      { name := "Usage Trend", weight := usageDeclineWeight
        value := 75, impact := .neutral }
    else
      let usagePercentages := subsWithUsage.map usagePct
      let avgUsage : Rat := usagePercentages.sum / (usagePercentages.length : Rat)
      if avgUsage ≥ 70 then
        { name := "Usage Trend", weight := usageDeclineWeight
          value := 100, impact := .positive }
      else if avgUsage ≥ 40 then
        { name := "Usage Trend", weight := usageDeclineWeight
          value := 70, impact := .neutral }
      else if avgUsage ≥ 20 then
        { name := "Usage Trend", weight := usageDeclineWeight
          value := 40, impact := .negative }
      else
        { name := "Usage Trend", weight := usageDeclineWeight
          value := 20, impact := .negative }

/-- Factor 3: Contract Value. -/
def calculateValueFactor (contract : Contract) : ScoreFactor :=
  let value := contract.totalValue
  if value ≥ 100000 then
    { name := "Contract Value", weight := contractValueWeight
      value := 100, impact := .positive }
  else if value ≥ 50000 then
    { name := "Contract Value", weight := contractValueWeight
      value := 85, impact := .positive }
  else if value ≥ 10000 then
    { name := "Contract Value", weight := contractValueWeight
      value := 70, impact := .neutral }
  else if value ≥ 1000 then
    { name := "Contract Value", weight := contractValueWeight
      value := 50, impact := .neutral }
  else
    { name := "Contract Value", weight := contractValueWeight
      value := 30, impact := .negative }

/-- Factor 4: Renewal Proximity (the `autoRenewal` bonus raises the value,
capped at 100, without changing the impact). -/
def calculateRenewalProximityFactor (now : Int) (contract : Contract) : ScoreFactor :=
  let daysUntilRenewal := daysBetween now contract.renewalDate
  let base : Rat × Impact :=
    if daysUntilRenewal ≤ 0 then (20, .negative)
    else if daysUntilRenewal ≤ 30 then (40, .negative)
    else if daysUntilRenewal ≤ 60 then (60, .neutral)
    else if daysUntilRenewal ≤ 90 then (80, .neutral)
    else (100, .positive)
  let factorScore : Rat :=
    if contract.autoRenewal then min (base.1 + 10) 100 else base.1
  { name := "Renewal Proximity", weight := renewalProximityWeight
    value := factorScore, impact := base.2 }

/-- Is an invoice a paid invoice with a recorded payment date? -/
def isPaidWithDate (inv : Invoice) : Bool :=
  inv.status = .paid && inv.paidDate.isSome

/-- Factor 5: Payment History (fixed weight 0.10). -/
def calculatePaymentHistoryFactor (invoices : List Invoice) : ScoreFactor :=
  let paidInvoices := invoices.filter isPaidWithDate
  if paidInvoices = [] then
    { name := "Payment History", weight := 0.10
      value := 75, impact := .neutral }
  else
    let lateDays : List Int :=
      (paidInvoices.map (fun inv => daysBetween inv.dueDate (inv.paidDate.getD 0))).filter
        (fun d => 0 < d)
    let lateCount : Nat := lateDays.length
    let totalDaysLate : Int := lateDays.sum
    let avgDaysLate : Rat :=
      if 0 < lateCount then (totalDaysLate : Rat) / (lateCount : Rat) else 0
    let onTimeRatio : Rat :=
      ((paidInvoices.length : Rat) - (lateCount : Rat)) / (paidInvoices.length : Rat)
    let factorScore := clamp (onTimeRatio * 100 - avgDaysLate * 2) 0 100
    { name := "Payment History", weight := 0.10
      value := factorScore
      impact :=
        if factorScore ≥ 80 then .positive
        else if factorScore ≥ 50 then .neutral
        else .negative }

/-- Weighted aggregation: `Σ(value×weight) / Σ(weight)`, defaulting to 50
when the total weight is not positive, then clamped and rounded. -/
def calculateWeightedScore (factors : List ScoreFactor) : Int :=
  let weightedSum : Rat := (factors.map (fun f => f.value * f.weight)).sum
  let totalWeight : Rat := (factors.map (fun f => f.weight)).sum
  let score : Rat := if 0 < totalWeight then weightedSum / totalWeight else 50
  jsRound (clamp score 0 100)

/-- Risk-tier banding of the aggregate score. -/
def determineRiskLevel (score : Int) : RiskLevel :=
  if score ≥ 80 then .low
  else if score ≥ riskThreshold then .medium
  else if score ≥ criticalThreshold then .high
  else .critical

/-- The five factors of one scoring run, in engine order. -/
def healthFactors (now : Int) (contract : Contract)
    (invoices : List Invoice) (subscriptions : List Subscription) : List ScoreFactor :=
  [calculateInvoiceFactor invoices,
   calculateUsageFactor subscriptions,
   calculateValueFactor contract,
   calculateRenewalProximityFactor now contract,
   calculatePaymentHistoryFactor invoices]

/-- `RenewalScoringEngine.calculateHealthScore`. -/
def calculateHealthScore (now : Int) (contract : Contract)
    (invoices : List Invoice) (subscriptions : List Subscription) : RenewalHealthScore :=
  let factors := healthFactors now contract invoices subscriptions
  let score := calculateWeightedScore factors
  { contractId := contract.id
    customerId := contract.customerId
    score := score
    riskLevel := determineRiskLevel score
    factors := factors
    calculatedAt := now }

end ContractIntel

namespace ContractIntel

/-! ## UnderbillingDetector (src/services/underbillingDetector.ts) -/

inductive UnderbillingType where
  | usage_overage | missing_invoice | rate_mismatch | quantity_mismatch
  deriving DecidableEq, Repr

inductive AlertSeverity where
  | low | medium | high
  deriving DecidableEq, Repr

structure UnderbillingAlert where
  id : String
  contractId : String
  customerId : String
  atype : UnderbillingType  -- the source field is named `type`, a reserved word here
  expectedAmount : Rat
  actualAmount : Rat
  difference : Rat
  period : String
  severity : AlertSeverity
  detectedAt : Int
  resolved : Bool
  deriving DecidableEq, Repr

/-- `calculateSeverity`: band an amount into an alert severity. -/
def calculateSeverity (amount : Rat) : AlertSeverity :=
  if amount ≥ 10000 then .high
  else if amount ≥ 1000 then .medium
  else .low

/-- The usage-overage guard: both usage fields defined and
`usageAmount > usageLimit`. -/
def usageQualifies (s : Subscription) : Bool :=
  s.usageAmount.isSome && s.usageLimit.isSome
    && decide (s.usageLimit.getD 0 < s.usageAmount.getD 0)

/-- `detectUsageOverage`: one alert per subscription whose usage exceeds its
limit, valuing the overage at the per-unit rate. -/
def detectUsageOverage (now : Int) (contract : Contract)
    (subscriptions : List Subscription) : List UnderbillingAlert :=
  subscriptions.filterMap (fun s =>
    if usageQualifies s then
      let overage := s.usageAmount.getD 0 - s.usageLimit.getD 0
      let estimatedOverageValue := overage * (s.unitPrice / s.quantity)
      some
        { id := generateId
          contractId := contract.id
          customerId := contract.customerId
          atype := .usage_overage
          expectedAmount := estimatedOverageValue
          actualAmount := 0
          difference := estimatedOverageValue
          -- the source renders the subscription date range as ISO strings here;
          -- numeral-to-text formatting is presentation only and not modelled
          period := "subscription period"
          severity := calculateSeverity estimatedOverageValue
          detectedAt := now
          resolved := false }
    else none)

/-- `detectMissingInvoices`: compare the count of non-void, non-draft
invoices against the count expected from the billing frequency. -/
def detectMissingInvoices (now : Int) (contract : Contract)
    (invoices : List Invoice) : List UnderbillingAlert :=
  let contractDays := daysBetween contract.startDate now
  match contract.billingFrequency with
  | .one_time => []  -- one-time billing, can't detect missing
  | freq =>
    let expectedInvoices : Int :=
      match freq with
      | .monthly => ⌊(contractDays : Rat) / 30⌋
      | .quarterly => ⌊(contractDays : Rat) / 90⌋
      | _ => ⌊(contractDays : Rat) / 365⌋
    let expectedPerPeriod : Rat :=
      match freq with
      | .monthly => contract.totalValue / 12
      | .quarterly => contract.totalValue / 4
      | _ => contract.totalValue
    let relevantInvoices := invoices.filter
      (fun inv => inv.status ≠ .void && inv.status ≠ .draft)
    if (relevantInvoices.length : Int) < expectedInvoices && 0 < expectedInvoices then
      let missingCount : Int := expectedInvoices - relevantInvoices.length
      let missingAmount : Rat := (missingCount : Rat) * expectedPerPeriod
      [{ id := generateId
         contractId := contract.id
         customerId := contract.customerId
         atype := .missing_invoice
         expectedAmount := missingAmount
         actualAmount := 0
         difference := missingAmount
         -- the source renders the contract start date as an ISO string here
         period := "since contract start"
         severity := calculateSeverity missingAmount
         detectedAt := now
         resolved := false }]
    else []

/-- `detectRateMismatches`: for each subscription, flag invoices on the same
contract created on/after the subscription start whose amount falls below
90% of the subscription price by more than 100. -/
def detectRateMismatches (now : Int) (subscriptions : List Subscription)
    (invoices : List Invoice) : List UnderbillingAlert :=
  (subscriptions.map (fun s =>
    let relevantInvoices := invoices.filter
      (fun inv => inv.contractId = s.contractId && s.startDate ≤ inv.createdAt)
    relevantInvoices.filterMap (fun inv =>
      let expectedMinAmount := s.totalPrice * 0.9
      if inv.amount < expectedMinAmount && inv.status ≠ .void then
        let difference := s.totalPrice - inv.amount
        if difference > 100 then
          some
            { id := generateId
              contractId := s.contractId
              customerId := s.customerId
              atype := .rate_mismatch
              expectedAmount := s.totalPrice
              actualAmount := inv.amount
              difference := difference
              period := inv.invoiceNumber
              severity := calculateSeverity difference
              detectedAt := now
              resolved := false }
        else none
      else none))).flatten

/-- Structural worker for `contractKeys`: the fuel argument (initially the
list length, which only shrinks under `filter`) keeps the recursion
structural. -/
def contractKeysAux : Nat → List Subscription → List String
  | 0, _ => []
  | _, [] => []
  | Nat.succ n, s :: rest =>
    s.contractId :: contractKeysAux n (rest.filter (fun t => t.contractId ≠ s.contractId))

/-- Contract ids in order of first appearance, mirroring the insertion order
of the JavaScript `Map` used to group subscriptions by contract. -/
def contractKeys (subs : List Subscription) : List String :=
  contractKeysAux subs.length subs

/-- `detectQuantityMismatches`: per contract group, compare the summed
subscription prices against the first listed invoice with a 5% tolerance. -/
def detectQuantityMismatches (now : Int) (subscriptions : List Subscription)
    (invoices : List Invoice) : List UnderbillingAlert :=
  (contractKeys subscriptions).filterMap (fun cid =>
    let subs := subscriptions.filter (fun s => s.contractId = cid)
    let expectedTotal : Rat := (subs.map (fun s => s.totalPrice)).sum
    let contractInvoices := invoices.filter (fun inv => inv.contractId = cid)
    match subs, contractInvoices with
    | s0 :: _, recentInvoice :: _ =>
      let tolerance := expectedTotal * 0.05
      if |recentInvoice.amount - expectedTotal| > tolerance
          && recentInvoice.amount < expectedTotal then
        some
          { id := generateId
            contractId := cid
            customerId := s0.customerId
            atype := .quantity_mismatch
            expectedAmount := expectedTotal
            actualAmount := recentInvoice.amount
            difference := expectedTotal - recentInvoice.amount
            period := recentInvoice.invoiceNumber
            severity := calculateSeverity (expectedTotal - recentInvoice.amount)
            detectedAt := now
            resolved := false }
      else none
    | _, _ => none)

/-- `detectUnderbilling`: run the four rules and concatenate their alerts
(the registry side effect is the append of exactly this list). -/
def detectUnderbilling (now : Int) (contract : Contract)
    (invoices : List Invoice) (subscriptions : List Subscription) : List UnderbillingAlert :=
  detectUsageOverage now contract subscriptions
    ++ detectMissingInvoices now contract invoices
    ++ detectRateMismatches now subscriptions invoices
    ++ detectQuantityMismatches now subscriptions invoices

/-- `getUnresolvedAlerts`: the registry entries not yet resolved. -/
def getUnresolvedAlerts (alerts : List UnderbillingAlert) : List UnderbillingAlert :=
  alerts.filter (fun a => !a.resolved)

/-- `resolveAlert`: find the first alert with the given id, flip its
`resolved` flag; report whether a matching alert was found.  Returns the
flag and the updated registry. -/
def resolveAlert (alertId : String) : List UnderbillingAlert → Bool × List UnderbillingAlert
  | [] => (false, [])
  | a :: rest =>
    if a.id = alertId then (true, { a with resolved := true } :: rest)
    else
      let r := resolveAlert alertId rest
      (r.1, a :: r.2)

end ContractIntel

namespace ContractIntel

/-! ## RenewalRiskService (src/services/renewalRisk.ts) -/

inductive RiskType where
  | churn | downgrade | late_renewal | price_sensitivity
  deriving DecidableEq, Repr

inductive RiskStatus where
  | new | acknowledged | in_progress | resolved
  deriving DecidableEq, Repr

/-- A risk indicator's observed value / threshold: number or string. -/
inductive IndicatorValue where
  | num (q : Rat)
  | str (s : String)
  deriving DecidableEq, Repr

structure RiskIndicator where
  name : String
  value : IndicatorValue
  threshold : IndicatorValue
  exceeded : Bool
  deriving DecidableEq, Repr

structure RenewalRisk where
  id : String
  contractId : String
  customerId : String
  riskType : RiskType
  riskScore : Int
  indicators : List RiskIndicator
  flaggedAt : Int
  status : RiskStatus
  deriving DecidableEq, Repr

/-- The service's internal thresholds (constants in the source). -/
def healthScoreChurnRisk : Int := 40
def healthScoreDowngradeRisk : Int := 60
def overdueInvoicesChurnRisk : Nat := 3
def overdueAmountChurnRisk : Rat := 5000
def daysUntilRenewalUrgent : Int := 30
def daysUntilRenewalSoon : Int := 60

/-- The shared emission gate of the four detectors: emit the risk only when
at least two indicators triggered, with the accumulated score capped at
100, `flaggedAt` set to the clock and initial status `new`. -/
def gateRisk (now : Int) (contract : Contract) (rt : RiskType)
    (riskScore : Int) (indicators : List RiskIndicator) : Option RenewalRisk :=
  if 2 ≤ indicators.length then
    some
      { id := generateId
        contractId := contract.id
        customerId := contract.customerId
        riskType := rt
        riskScore := min riskScore 100
        indicators := indicators
        flaggedAt := now
        status := .new }
  else none

/-- `detectChurnRisk`: five indicators with fixed score additions, emitted
only when at least two trigger; the score is capped at 100. -/
def detectChurnRisk (now : Int) (contract : Contract)
    (healthScore : RenewalHealthScore) (invoices : List Invoice) : Option RenewalRisk :=
  let overdueInvoices := invoices.filter (fun inv => inv.status = .overdue)
  let totalOverdue : Rat := (overdueInvoices.map (fun inv => inv.amount)).sum
  let negativeFactors := healthScore.factors.filter (fun f => f.impact = .negative)
  let ind1 : List RiskIndicator :=
    if healthScore.score ≤ healthScoreChurnRisk then
      [{ name := "Low Health Score", value := .num healthScore.score
         threshold := .num healthScoreChurnRisk, exceeded := true }]
    else []
  let ind2 : List RiskIndicator :=
    if overdueInvoicesChurnRisk ≤ overdueInvoices.length then
      [{ name := "Multiple Overdue Invoices", value := .num overdueInvoices.length
         threshold := .num overdueInvoicesChurnRisk, exceeded := true }]
    else []
  let ind3 : List RiskIndicator :=
    if overdueAmountChurnRisk ≤ totalOverdue then
      [{ name := "High Overdue Amount", value := .num totalOverdue
         threshold := .num overdueAmountChurnRisk, exceeded := true }]
    else []
  let ind4 : List RiskIndicator :=
    if healthScore.riskLevel = .critical then
      [{ name := "Critical Risk Level", value := .str "CRITICAL"
         threshold := .str "HIGH or below", exceeded := true }]
    else []
  let ind5 : List RiskIndicator :=
    if 2 ≤ negativeFactors.length then
      [{ name := "Multiple Negative Factors", value := .num negativeFactors.length
         threshold := .num 2, exceeded := true }]
    else []
  let indicators := ind1 ++ ind2 ++ ind3 ++ ind4 ++ ind5
  let riskScore : Int :=
    (if healthScore.score ≤ healthScoreChurnRisk then 40 else 0)
      + (if overdueInvoicesChurnRisk ≤ overdueInvoices.length then 30 else 0)
      + (if overdueAmountChurnRisk ≤ totalOverdue then 30 else 0)
      + (if healthScore.riskLevel = .critical then 20 else 0)
      + (if 2 ≤ negativeFactors.length then 10 else 0)
  gateRisk now contract .churn riskScore indicators

/-- `detectDowngradeRisk`. -/
def detectDowngradeRisk (now : Int) (contract : Contract)
    (healthScore : RenewalHealthScore) : Option RenewalRisk :=
  let usageFactor := healthScore.factors.find? (fun f => f.name = "Usage Trend")
  let valueFactor := healthScore.factors.find? (fun f => f.name = "Contract Value")
  let cond1 : Bool := healthScoreChurnRisk < healthScore.score
      && healthScore.score ≤ healthScoreDowngradeRisk
  let cond2 : Bool :=
    match usageFactor with
    | some f => decide (f.value < 50)
    | none => false
  let cond3 : Bool :=
    decide (50000 < contract.totalValue)
      && (match valueFactor with
          | some f => decide (f.impact ≠ .positive)
          | none => false)
  let ind1 : List RiskIndicator :=
    if cond1 then
      [{ name := "Moderate Health Score", value := .num healthScore.score
         threshold := .num healthScoreDowngradeRisk, exceeded := true }]
    else []
  let ind2 : List RiskIndicator :=
    if cond2 then
      [{ name := "Low Product Usage"
         value := .num ((usageFactor.map (fun f => f.value)).getD 0)
         threshold := .num 50, exceeded := true }]
    else []
  let ind3 : List RiskIndicator :=
    if cond3 then
      [{ name := "Large Contract Value at Risk", value := .num contract.totalValue
         threshold := .num 50000, exceeded := true }]
    else []
  let indicators := ind1 ++ ind2 ++ ind3
  let riskScore : Int :=
    (if cond1 then 40 else 0) + (if cond2 then 35 else 0) + (if cond3 then 25 else 0)
  gateRisk now contract .downgrade riskScore indicators

/-- `detectLateRenewalRisk`. -/
def detectLateRenewalRisk (now : Int) (contract : Contract)
    (invoices : List Invoice) : Option RenewalRisk :=
  let daysUntilRenewal := daysBetween now contract.renewalDate
  let outstandingInvoices := invoices.filter
    (fun inv => inv.status ≠ .paid && inv.status ≠ .void)
  let cond1 : Bool := daysUntilRenewal ≤ daysUntilRenewalUrgent
  let cond1b : Bool := !cond1 && daysUntilRenewal ≤ daysUntilRenewalSoon
  let cond2 : Bool := 0 < outstandingInvoices.length
  let cond3 : Bool := !contract.autoRenewal && isWithinDays now contract.renewalDate 90
  let ind1 : List RiskIndicator :=
    if cond1 then
      [{ name := "Renewal Imminent", value := .num daysUntilRenewal
         threshold := .num daysUntilRenewalUrgent, exceeded := true }]
    else if cond1b then
      [{ name := "Renewal Approaching", value := .num daysUntilRenewal
         threshold := .num daysUntilRenewalSoon, exceeded := true }]
    else []
  let ind2 : List RiskIndicator :=
    if cond2 then
      [{ name := "Outstanding Invoices", value := .num outstandingInvoices.length
         threshold := .num 0, exceeded := true }]
    else []
  let ind3 : List RiskIndicator :=
    if cond3 then
      [{ name := "Manual Renewal Required", value := .str "No auto-renewal"
         threshold := .str "Auto-renewal enabled", exceeded := true }]
    else []
  let indicators := ind1 ++ ind2 ++ ind3
  let riskScore : Int :=
    (if cond1 then 40 else if cond1b then 25 else 0)
      + (if cond2 then 25 else 0) + (if cond3 then 20 else 0)
  gateRisk now contract .late_renewal riskScore indicators

/-- `detectPriceSensitivityRisk`. -/
def detectPriceSensitivityRisk (now : Int) (contract : Contract)
    (invoices : List Invoice) : Option RenewalRisk :=
  let paidInvoices := invoices.filter (fun inv => inv.status = .paid)
  let lateCount : Nat :=
    (paidInvoices.filter (fun inv =>
      inv.paidDate.isSome && decide (0 < daysBetween inv.dueDate (inv.paidDate.getD 0)))).length
  let latePaymentRatio : Rat :=
    if 0 < paidInvoices.length then (lateCount : Rat) / (paidInvoices.length : Rat) else 0
  let partialPayments := invoices.filter (fun inv => inv.status = .partly)
  let cond1 : Bool := decide (latePaymentRatio > 0.5)
  let cond2 : Bool := decide (25000 < contract.totalValue) && decide (latePaymentRatio > 0.3)
  let cond3 : Bool := 0 < partialPayments.length
  let ind1 : List RiskIndicator :=
    if cond1 then
      [{ name := "Frequent Late Payments", value := .num (latePaymentRatio * 100)
         threshold := .str "50%", exceeded := true }]
    else []
  let ind2 : List RiskIndicator :=
    if cond2 then
      [{ name := "Payment Pressure on Large Contract", value := .num contract.totalValue
         threshold := .num 25000, exceeded := true }]
    else []
  let ind3 : List RiskIndicator :=
    if cond3 then
      [{ name := "History of Partial Payments", value := .num partialPayments.length
         threshold := .num 0, exceeded := true }]
    else []
  let indicators := ind1 ++ ind2 ++ ind3
  let riskScore : Int :=
    (if cond1 then 35 else 0) + (if cond2 then 30 else 0) + (if cond3 then 25 else 0)
  gateRisk now contract .price_sensitivity riskScore indicators

/-- `analyzeRenewalRisks`: run the four detectors and collect the emitted
risks (the registry side effect appends exactly this list). -/
def analyzeRenewalRisks (now : Int) (contract : Contract)
    (healthScore : RenewalHealthScore) (invoices : List Invoice) : List RenewalRisk :=
  (detectChurnRisk now contract healthScore invoices).toList
    ++ (detectDowngradeRisk now contract healthScore).toList
    ++ (detectLateRenewalRisk now contract invoices).toList
    ++ (detectPriceSensitivityRisk now contract invoices).toList

end ContractIntel


namespace ContractIntel

/-! ## Rounding and clamping lemmas -/

theorem jsRound_monotone {a b : Rat} (h : a ≤ b) : jsRound a ≤ jsRound b :=
  Int.floor_mono (add_le_add_right h _)

theorem jsRound_zero : jsRound (0 : Rat) = 0 := by
  unfold jsRound
  rw [Rat.floor_def]
  with_unfolding_all decide

theorem jsRound_hundred : jsRound (100 : Rat) = 100 := by
  unfold jsRound
  rw [Rat.floor_def]
  with_unfolding_all decide

/-- Clamping to `[0,100]` before rounding agrees with rounding first and
clamping the integer afterwards. -/
theorem jsRound_clamp (q : Rat) :
    jsRound (clamp q 0 100) = max 0 (min 100 (jsRound q)) := by
  unfold clamp
  rcases le_total q 0 with h | h
  · have hq : jsRound q ≤ 0 := jsRound_zero ▸ jsRound_monotone h
    rw [max_eq_right h, min_eq_left (by norm_num : (0:Rat) ≤ 100), jsRound_zero,
      min_eq_right (le_trans hq (by norm_num)), max_eq_left hq]
  · rcases le_total 100 q with h2 | h2
    · have hq : 100 ≤ jsRound q := jsRound_hundred ▸ jsRound_monotone h2
      rw [max_eq_left (le_trans (by norm_num) h2), min_eq_right h2, jsRound_hundred,
        min_eq_left hq, max_eq_right (by norm_num)]
    · have hq0 : 0 ≤ jsRound q := jsRound_zero ▸ jsRound_monotone h
      have hq100 : jsRound q ≤ 100 := jsRound_hundred ▸ jsRound_monotone h2
      rw [max_eq_left h, min_eq_left h2, min_eq_right hq100, max_eq_right hq0]

/-! ## Weight lemmas: every factor carries its fixed configured weight -/

theorem calculateInvoiceFactor_weight (l : List Invoice) :
    (calculateInvoiceFactor l).weight = invoiceOverdueWeight := by
  unfold calculateInvoiceFactor
  split <;> rfl

theorem calculateUsageFactor_weight (l : List Subscription) :
    (calculateUsageFactor l).weight = usageDeclineWeight := by
  simp only [calculateUsageFactor]
  split_ifs <;> rfl

theorem calculateValueFactor_weight (c : Contract) :
    (calculateValueFactor c).weight = contractValueWeight := by
  simp only [calculateValueFactor]
  split_ifs <;> rfl

theorem calculateRenewalProximityFactor_weight (now : Int) (c : Contract) :
    (calculateRenewalProximityFactor now c).weight = renewalProximityWeight := rfl

theorem calculatePaymentHistoryFactor_weight (l : List Invoice) :
    (calculatePaymentHistoryFactor l).weight = 0.10 := by
  simp only [calculatePaymentHistoryFactor]
  split_ifs <;> rfl

/-- The total weight of one scoring run is the constant 0.95. -/
theorem healthFactors_totalWeight (now : Int) (c : Contract)
    (invoices : List Invoice) (subs : List Subscription) :
    ((healthFactors now c invoices subs).map (fun f => f.weight)).sum = 0.95 := by
  unfold healthFactors
  simp only [List.map_cons, List.map_nil, List.sum_cons, List.sum_nil,
    calculateInvoiceFactor_weight, calculateUsageFactor_weight,
    calculateValueFactor_weight, calculateRenewalProximityFactor_weight,
    calculatePaymentHistoryFactor_weight]
  norm_num [invoiceOverdueWeight, usageDeclineWeight, contractValueWeight,
    renewalProximityWeight]

/-- Numeric rank of a risk level: higher rank means worse. -/
def riskRank : RiskLevel → Nat
  | .low => 0
  | .medium => 1
  | .high => 2
  | .critical => 3

/-- The aggregate score of any scoring run lies in `[0, 100]`. -/
theorem calculateWeightedScore_bounds (factors : List ScoreFactor) :
    0 ≤ calculateWeightedScore factors ∧ calculateWeightedScore factors ≤ 100 := by
  unfold calculateWeightedScore
  constructor
  · rw [jsRound_clamp]
    exact le_max_left _ _
  · rw [jsRound_clamp]
    exact max_le (by norm_num) (min_le_left _ _)

end ContractIntel

namespace ContractIntel

/-! ## Concrete sample data for witnesses -/

/-- A concrete contract used to instantiate general theorems. -/
def sampleContract : Contract :=
  { id := "c-1", customerId := "cust-1", customerName := "Acme"
    contractNumber := "CN-1", startDate := 0, endDate := 730, renewalDate := 400
    totalValue := 60000, currency := "USD", status := .active
    billingFrequency := .monthly, autoRenewal := false }

/-! ## C1 -/

/-- C1: for every contract, invoice list and subscription list,
`calculateHealthScore` returns an integer score with `0 ≤ score ≤ 100`,
equal to the weight-normalised mean `Σ(value×weight)/Σ(weight)` of the five
factor values rounded to the nearest integer and clamped to `[0,100]`; the
risk level is exactly the banding `score ≥ 80 → low`, `score ≥ riskThreshold
(60) → medium`, `score ≥ criticalThreshold (40) → high`, else `critical`,
and that banding is a monotonically non-increasing function of the score. -/
theorem C1_healthScore_spec (now : Int) (c : Contract)
    (invoices : List Invoice) (subs : List Subscription) :
    (0 ≤ (calculateHealthScore now c invoices subs).score
        ∧ (calculateHealthScore now c invoices subs).score ≤ 100)
    ∧ (calculateHealthScore now c invoices subs).factors.length = 5
    ∧ (calculateHealthScore now c invoices subs).score
        = max 0 (min 100 (jsRound
            ((((calculateHealthScore now c invoices subs).factors.map
                  (fun f => f.value * f.weight)).sum)
              / (((calculateHealthScore now c invoices subs).factors.map
                  (fun f => f.weight)).sum))))
    ∧ (calculateHealthScore now c invoices subs).riskLevel
        = (if (calculateHealthScore now c invoices subs).score ≥ 80 then RiskLevel.low
           else if (calculateHealthScore now c invoices subs).score ≥ riskThreshold then RiskLevel.medium
           else if (calculateHealthScore now c invoices subs).score ≥ criticalThreshold then RiskLevel.high
           else RiskLevel.critical)
    ∧ ∀ s t : Int, s ≤ t →
        riskRank (determineRiskLevel t) ≤ riskRank (determineRiskLevel s) := by
  have hfac : (calculateHealthScore now c invoices subs).factors
      = healthFactors now c invoices subs := rfl
  have hsc : (calculateHealthScore now c invoices subs).score
      = calculateWeightedScore (healthFactors now c invoices subs) := rfl
  have htw := healthFactors_totalWeight now c invoices subs
  refine ⟨hsc ▸ calculateWeightedScore_bounds _, rfl, ?_, rfl, ?_⟩
  · rw [hsc, hfac]
    simp only [calculateWeightedScore]
    rw [htw, if_pos (by norm_num : (0:Rat) < 0.95)]
    exact jsRound_clamp _
  · intro s t hst
    simp only [determineRiskLevel, riskThreshold, criticalThreshold]
    split_ifs <;> simp [riskRank] <;> omega

/-- C1 witness: the banding monotonicity applied at the concrete scores 45
and 75. -/
theorem C1_healthScore_spec_witness :
    riskRank (determineRiskLevel 75) ≤ riskRank (determineRiskLevel 45) :=
  (C1_healthScore_spec 0 sampleContract [] []).2.2.2.2 45 75 (by norm_num)

end ContractIntel

namespace ContractIntel

/-! ## C6 -/

theorem calculateValueFactor_autoRenewal (c : Contract) (b : Bool) :
    calculateValueFactor { c with autoRenewal := b } = calculateValueFactor c := rfl

theorem clamp_monotone {a b lo hi : Rat} (h : a ≤ b) :
    clamp a lo hi ≤ clamp b lo hi :=
  min_le_min (max_le_max h le_rfl) le_rfl

/-- Turning on auto-renewal can only raise the proximity factor value. -/
theorem proximity_value_autoRenewal_mono (now : Int) (c : Contract) :
    (calculateRenewalProximityFactor now { c with autoRenewal := false }).value
      ≤ (calculateRenewalProximityFactor now { c with autoRenewal := true }).value := by
  simp only [calculateRenewalProximityFactor]
  simp only [Bool.false_eq_true, if_false, if_true]
  split_ifs <;> norm_num [min_def]

/-- C6: for two contracts identical except for `autoRenewal`, and identical
invoice and subscription lists, the health score with `autoRenewal = true`
is at least the health score with `autoRenewal = false`. -/
theorem C6_autoRenewal_score_mono (now : Int) (c : Contract)
    (invoices : List Invoice) (subs : List Subscription) :
    (calculateHealthScore now { c with autoRenewal := false } invoices subs).score
      ≤ (calculateHealthScore now { c with autoRenewal := true } invoices subs).score := by
  have hp := proximity_value_autoRenewal_mono now c
  have hw : (0:Rat) ≤ renewalProximityWeight := by norm_num [renewalProximityWeight]
  have hws :
      ((healthFactors now { c with autoRenewal := false } invoices subs).map
          (fun f => f.value * f.weight)).sum
        ≤ ((healthFactors now { c with autoRenewal := true } invoices subs).map
          (fun f => f.value * f.weight)).sum := by
    simp only [healthFactors, List.map_cons, List.map_nil, List.sum_cons, List.sum_nil,
      calculateValueFactor_autoRenewal, calculateRenewalProximityFactor_weight]
    have := mul_le_mul_of_nonneg_right hp hw
    linarith
  show calculateWeightedScore (healthFactors now { c with autoRenewal := false } invoices subs)
      ≤ calculateWeightedScore (healthFactors now { c with autoRenewal := true } invoices subs)
  simp only [calculateWeightedScore]
  rw [healthFactors_totalWeight, healthFactors_totalWeight,
    if_pos (by norm_num : (0:Rat) < 0.95), if_pos (by norm_num : (0:Rat) < 0.95)]
  exact jsRound_monotone (clamp_monotone
    ((div_le_div_iff_of_pos_right (by norm_num)).mpr hws))

end ContractIntel

namespace ContractIntel

/-! ## C7 and C10 -/

/-- The usage percentage exactly as the spec words it:
`usageAmount/usageLimit×100`. -/
def specUsagePercentage (s : Subscription) : Rat :=
  s.usageAmount.getD 0 / s.usageLimit.getD 0 * 100

/-- The spec's banding of the average usage percentage (value part). -/
def specUsageBandValue (avg : Rat) : Rat :=
  if avg ≥ 70 then 100 else if avg ≥ 40 then 70 else if avg ≥ 20 then 40 else 20

/-- The spec's banding of the average usage percentage (impact part). -/
def specUsageBandImpact (avg : Rat) : Impact :=
  if avg ≥ 70 then .positive else if avg ≥ 40 then .neutral else .negative

/-- The engine's per-subscription percentage coincides with the spec's
formula (for a zero limit both give 0, since division by zero is 0 here). -/
theorem usagePct_eq_spec (s : Subscription) : usagePct s = specUsagePercentage s := by
  unfold usagePct specUsagePercentage calculatePercentage
  by_cases h : s.usageLimit.getD 0 = 0
  · simp [h]
  · rw [if_neg h]
    field_simp

/-- C7: whenever at least one subscription carries both usage fields, the
Usage Trend factor equals the band of the average of the subscriptions'
usage percentages `usageAmount/usageLimit×100`: average ≥70 → 100/positive,
≥40 → 70/neutral, ≥20 → 40/negative, else 20/negative. -/
theorem C7_usage_factor_banding (subs : List Subscription)
    (h : ∃ s ∈ subs, hasUsageData s = true) :
    (calculateUsageFactor subs).value
        = specUsageBandValue
            (((subs.filter hasUsageData).map specUsagePercentage).sum
              / ((subs.filter hasUsageData).length : Rat))
      ∧ (calculateUsageFactor subs).impact
        = specUsageBandImpact
            (((subs.filter hasUsageData).map specUsagePercentage).sum
              / ((subs.filter hasUsageData).length : Rat)) := by
  obtain ⟨s, hs, hdat⟩ := h
  have hne : subs ≠ [] := List.ne_nil_of_mem hs
  have hfil : subs.filter hasUsageData ≠ [] :=
    List.ne_nil_of_mem (List.mem_filter.mpr ⟨hs, hdat⟩)
  have hfun : usagePct = specUsagePercentage := funext usagePct_eq_spec
  simp only [calculateUsageFactor, hfun]
  rw [if_neg hne, if_neg hfil]
  simp only [List.length_map]
  simp only [specUsageBandValue, specUsageBandImpact]
  split_ifs with h1 h2 h3
  · exact ⟨rfl, rfl⟩
  · exact ⟨rfl, rfl⟩
  · exact ⟨rfl, rfl⟩
  · exact ⟨rfl, rfl⟩

/-- A concrete subscription at 700/1000 usage. -/
def sampleSubscription : Subscription :=
  { id := "s-1", contractId := "c-1", customerId := "cust-1", productId := "p-1"
    productName := "Widget", quantity := 1, unitPrice := 20, totalPrice := 1200
    usageAmount := some 700, usageLimit := some 1000, startDate := 0, endDate := 365
    status := .active }

/-- C7 witness: the banding theorem applied to one concrete subscription at
700/1000 usage. -/
theorem C7_usage_factor_banding_witness :
    (calculateUsageFactor [sampleSubscription]).value
        = specUsageBandValue
            ((([sampleSubscription].filter hasUsageData).map specUsagePercentage).sum
              / ((([sampleSubscription].filter hasUsageData)).length : Rat))
      ∧ (calculateUsageFactor [sampleSubscription]).impact
        = specUsageBandImpact
            ((([sampleSubscription].filter hasUsageData).map specUsagePercentage).sum
              / ((([sampleSubscription].filter hasUsageData)).length : Rat)) :=
  C7_usage_factor_banding [sampleSubscription]
    ⟨sampleSubscription, by simp, rfl⟩

/-- C10: the zero-denominator guard of the usage-percentage helper confines
the division-by-zero hazard away from the scoring path: a subscription with
`usageLimit = 0` contributes a zero percentage, and the health score of any
input containing such a subscription is still a well-defined integer in
`[0,100]`. -/
theorem C10_zero_usage_limit_safe :
    (∀ v : Rat, calculatePercentage v 0 = 0)
      ∧ (∀ s : Subscription, s.usageLimit = some 0 → usagePct s = 0)
      ∧ (∀ (now : Int) (c : Contract) (invoices : List Invoice)
          (subs : List Subscription) (s : Subscription),
          s ∈ subs → s.usageLimit = some 0 →
          0 ≤ (calculateHealthScore now c invoices subs).score
            ∧ (calculateHealthScore now c invoices subs).score ≤ 100) := by
  refine ⟨fun v => by simp [calculatePercentage], fun s hs => ?_, ?_⟩
  · simp [usagePct, calculatePercentage, hs]
  · intro now c invoices subs s _ _
    exact calculateWeightedScore_bounds _

/-- C10 witness: the guard and the score bounds at concrete inputs with a
zero usage limit. -/
theorem C10_zero_usage_limit_safe_witness :
    usagePct { sampleSubscription with usageLimit := some 0 } = 0
      ∧ (0 ≤ (calculateHealthScore 0 sampleContract []
            [{ sampleSubscription with usageLimit := some 0 }]).score
        ∧ (calculateHealthScore 0 sampleContract []
            [{ sampleSubscription with usageLimit := some 0 }]).score ≤ 100) :=
  ⟨C10_zero_usage_limit_safe.2.1 _ rfl,
   C10_zero_usage_limit_safe.2.2 0 sampleContract []
     [{ sampleSubscription with usageLimit := some 0 }]
     { sampleSubscription with usageLimit := some 0 } (by simp) rfl⟩

end ContractIntel

namespace ContractIntel

/-! ## Attribution lemmas for the four underbilling rules -/

theorem mem_detectUsageOverage (now : Int) (c : Contract)
    (subs : List Subscription) (a : UnderbillingAlert)
    (ha : a ∈ detectUsageOverage now c subs) :
    a.atype = .usage_overage ∧ a.contractId = c.id ∧ a.customerId = c.customerId := by
  unfold detectUsageOverage at ha
  obtain ⟨s, _, hfs⟩ := List.mem_filterMap.mp ha
  split_ifs at hfs <;> simp only [Option.some.injEq] at hfs
  subst hfs
  exact ⟨rfl, rfl, rfl⟩

theorem mem_detectMissingInvoices (now : Int) (c : Contract)
    (invoices : List Invoice) (a : UnderbillingAlert)
    (ha : a ∈ detectMissingInvoices now c invoices) :
    a.atype = .missing_invoice ∧ a.contractId = c.id ∧ a.customerId = c.customerId := by
  unfold detectMissingInvoices at ha
  rcases hbf : c.billingFrequency with _ | _ | _ | _ <;> rw [hbf] at ha <;>
    simp only [] at ha <;>
    [skip; skip; skip; exact absurd ha (List.not_mem_nil a)] <;>
    · split_ifs at ha with h
      · rw [List.mem_singleton] at ha
        subst ha
        exact ⟨rfl, rfl, rfl⟩
      · exact absurd ha (List.not_mem_nil a)

theorem mem_detectRateMismatches (now : Int) (subs : List Subscription)
    (invoices : List Invoice) (a : UnderbillingAlert)
    (ha : a ∈ detectRateMismatches now subs invoices) :
    a.atype = .rate_mismatch
      ∧ ∃ s ∈ subs, a.contractId = s.contractId ∧ a.customerId = s.customerId := by
  unfold detectRateMismatches at ha
  rw [List.mem_flatten] at ha
  obtain ⟨l, hl, hal⟩ := ha
  obtain ⟨s, hs, rfl⟩ := List.mem_map.mp hl
  obtain ⟨inv, _, hfi⟩ := List.mem_filterMap.mp hal
  dsimp only at hfi
  split_ifs at hfi <;> simp only [Option.some.injEq] at hfi
  subst hfi
  exact ⟨rfl, s, hs, rfl, rfl⟩

theorem mem_detectQuantityMismatches (now : Int) (subs : List Subscription)
    (invoices : List Invoice) (a : UnderbillingAlert)
    (ha : a ∈ detectQuantityMismatches now subs invoices) :
    a.atype = .quantity_mismatch
      ∧ ∃ s ∈ subs, a.contractId = s.contractId ∧ a.customerId = s.customerId := by
  unfold detectQuantityMismatches at ha
  obtain ⟨cid, _, hf⟩ := List.mem_filterMap.mp ha
  rcases hsubs : subs.filter (fun s => s.contractId = cid) with _ | ⟨s0, rest⟩ <;>
    rw [hsubs] at hf
  · simp at hf
  rcases hinvs : invoices.filter (fun inv => inv.contractId = cid) with _ | ⟨inv0, irest⟩ <;>
    rw [hinvs] at hf
  · simp at hf
  dsimp only at hf
  split_ifs at hf <;> simp only [Option.some.injEq] at hf
  subst hf
  have hs0 : s0 ∈ subs.filter (fun s => s.contractId = cid) := by
    rw [hsubs]; exact List.mem_cons_self _ _
  have hmem := List.mem_filter.mp hs0
  refine ⟨rfl, s0, hmem.1, ?_, rfl⟩
  have : s0.contractId = cid := by simpa using hmem.2
  exact this.symm

end ContractIntel

namespace ContractIntel

/-! ## C3, C4, C9 -/

/-- `filterMap` with a guarded function is `filter` followed by `map`. -/
theorem filterMap_guard {α β : Type} (q : α → Bool) (g : α → β) (l : List α) :
    l.filterMap (fun x => if q x then some (g x) else none) = (l.filter q).map g := by
  induction l with
  | nil => rfl
  | cons x xs ih =>
    by_cases h : q x = true
    · simp [List.filterMap_cons, List.filter_cons, h, ih]
    · simp [List.filterMap_cons, List.filter_cons, h, ih]

/-- A concrete subscription 500 units over its usage limit. -/
def overSub : Subscription :=
  { sampleSubscription with usageAmount := some 1500, usageLimit := some 1000 }

/-- C3: the usage-overage alerts of `detectUnderbilling` are exactly one per
subscription with both usage fields defined and `usageAmount > usageLimit`,
with `expectedAmount = difference = (usageAmount − usageLimit) ×
(unitPrice / quantity)`, `actualAmount = 0` and the `≥10000 → high /
≥1000 → medium / low` severity banding of the difference; in particular the
input `usageAmount=1500, usageLimit=1000, unitPrice=20, quantity=1` yields
a single alert with difference 10000 and severity high. -/
theorem C3_usage_overage_alerts (now : Int) (c : Contract)
    (invoices : List Invoice) (subs : List Subscription) :
    List.Forall₂
      (fun (a : UnderbillingAlert) (s : Subscription) =>
        a.expectedAmount
            = (s.usageAmount.getD 0 - s.usageLimit.getD 0) * (s.unitPrice / s.quantity)
          ∧ a.difference = a.expectedAmount
          ∧ a.actualAmount = 0
          ∧ a.severity
            = (if a.difference ≥ 10000 then AlertSeverity.high
               else if a.difference ≥ 1000 then AlertSeverity.medium
               else AlertSeverity.low))
      ((detectUnderbilling now c invoices subs).filter
        (fun a => a.atype = UnderbillingType.usage_overage))
      (subs.filter usageQualifies)
    ∧ (detectUnderbilling 0 sampleContract [] [overSub]).map
        (fun a => (a.atype, a.difference, a.severity))
      = [(UnderbillingType.usage_overage, 10000, AlertSeverity.high)] := by
  constructor
  · rw [detectUnderbilling, List.filter_append, List.filter_append, List.filter_append]
    have h2 : (detectMissingInvoices now c invoices).filter
        (fun a => a.atype = UnderbillingType.usage_overage) = [] := by
      rw [List.filter_eq_nil_iff]
      intro a ha
      simp [(mem_detectMissingInvoices now c invoices a ha).1]
    have h3 : (detectRateMismatches now subs invoices).filter
        (fun a => a.atype = UnderbillingType.usage_overage) = [] := by
      rw [List.filter_eq_nil_iff]
      intro a ha
      simp [(mem_detectRateMismatches now subs invoices a ha).1]
    have h4 : (detectQuantityMismatches now subs invoices).filter
        (fun a => a.atype = UnderbillingType.usage_overage) = [] := by
      rw [List.filter_eq_nil_iff]
      intro a ha
      simp [(mem_detectQuantityMismatches now subs invoices a ha).1]
    have h1 : (detectUsageOverage now c subs).filter
        (fun a => a.atype = UnderbillingType.usage_overage)
        = detectUsageOverage now c subs := by
      rw [List.filter_eq_self]
      intro a ha
      simp [(mem_detectUsageOverage now c subs a ha).1]
    rw [h1, h2, h3, h4, List.append_nil, List.append_nil, List.append_nil]
    rw [detectUsageOverage, filterMap_guard]
    rw [List.forall₂_map_left_iff]
    rw [List.forall₂_same]
    intro s _
    exact ⟨rfl, rfl, rfl, rfl⟩
  · norm_num [detectUnderbilling, detectUsageOverage, detectMissingInvoices,
      detectRateMismatches, detectQuantityMismatches, overSub, sampleSubscription,
      sampleContract, daysBetween, contractKeys, contractKeysAux, calculateSeverity,
      usageQualifies, List.filterMap_cons]

/-- A concrete invoice on the sample contract. -/
def sampleInvoice : Invoice :=
  { id := "inv-1", contractId := "c-1", invoiceNumber := "INV-1", customerId := "cust-1"
    amount := 5000, currency := "USD", dueDate := 30, paidDate := none
    status := .overdue, createdAt := 0 }

/-- C4: a contract with one-time billing never produces a missing-invoice
alert, whatever the invoice list. -/
theorem C4_one_time_no_missing_invoice (now : Int) (c : Contract)
    (invoices : List Invoice) (subs : List Subscription)
    (h : c.billingFrequency = BillingFrequency.one_time) :
    (detectUnderbilling now c invoices subs).filter
      (fun a => a.atype = UnderbillingType.missing_invoice) = [] := by
  rw [detectUnderbilling, List.filter_append, List.filter_append, List.filter_append]
  have h1 : (detectUsageOverage now c subs).filter
      (fun a => a.atype = UnderbillingType.missing_invoice) = [] := by
    rw [List.filter_eq_nil_iff]
    intro a ha
    simp [(mem_detectUsageOverage now c subs a ha).1]
  have h2 : detectMissingInvoices now c invoices = [] := by
    simp [detectMissingInvoices, h]
  have h3 : (detectRateMismatches now subs invoices).filter
      (fun a => a.atype = UnderbillingType.missing_invoice) = [] := by
    rw [List.filter_eq_nil_iff]
    intro a ha
    simp [(mem_detectRateMismatches now subs invoices a ha).1]
  have h4 : (detectQuantityMismatches now subs invoices).filter
      (fun a => a.atype = UnderbillingType.missing_invoice) = [] := by
    rw [List.filter_eq_nil_iff]
    intro a ha
    simp [(mem_detectQuantityMismatches now subs invoices a ha).1]
  simp [h1, h2, h3, h4]

/-- C4 witness: a one-time contract with a nonempty invoice list yields no
missing-invoice alert. -/
theorem C4_one_time_no_missing_invoice_witness :
    (detectUnderbilling 0 { sampleContract with billingFrequency := .one_time }
        [sampleInvoice] []).filter
      (fun a => a.atype = UnderbillingType.missing_invoice) = [] :=
  C4_one_time_no_missing_invoice 0 _ [sampleInvoice] [] rfl

end ContractIntel

namespace ContractIntel

/-- A subscription on a different contract than the sample one. -/
def foreignSub : Subscription :=
  { sampleSubscription with
      contractId := "c-2"
      customerId := "cust-2"
      usageAmount := none
      usageLimit := none }

/-- An underbilled invoice on that other contract. -/
def foreignInvoice : Invoice :=
  { sampleInvoice with
      contractId := "c-2"
      customerId := "cust-2"
      amount := 500
      status := .sent
      createdAt := 0 }

/-- C9: `detectUnderbilling` does not restrict its lists to the given
contract: usage-overage and missing-invoice alerts carry the argument
contract's ids, but rate- and quantity-mismatch alerts carry the ids of the
subscription (group) that produced them — so a subscription with a foreign
`contractId` makes the result reference a contract other than the
argument, as the concrete run below shows. -/
theorem C9_alert_attribution (now : Int) (c : Contract)
    (invoices : List Invoice) (subs : List Subscription) :
    (∀ a ∈ detectUnderbilling now c invoices subs,
      ((a.atype = UnderbillingType.usage_overage
          ∨ a.atype = UnderbillingType.missing_invoice) →
          a.contractId = c.id ∧ a.customerId = c.customerId)
      ∧ ((a.atype = UnderbillingType.rate_mismatch
          ∨ a.atype = UnderbillingType.quantity_mismatch) →
          ∃ s ∈ subs, a.contractId = s.contractId ∧ a.customerId = s.customerId))
    ∧ ∃ a ∈ detectUnderbilling 0 sampleContract [foreignInvoice] [foreignSub],
        a.contractId ≠ sampleContract.id := by
  constructor
  · intro a ha
    rw [detectUnderbilling, List.append_assoc, List.append_assoc] at ha
    rcases List.mem_append.mp ha with h | ha2
    · have hu := mem_detectUsageOverage now c subs a h
      refine ⟨fun _ => ⟨hu.2.1, hu.2.2⟩, fun hor => ?_⟩
      rcases hor with ht | ht <;> rw [hu.1] at ht <;> cases ht
    rcases List.mem_append.mp ha2 with h | ha3
    · have hm := mem_detectMissingInvoices now c invoices a h
      refine ⟨fun _ => ⟨hm.2.1, hm.2.2⟩, fun hor => ?_⟩
      rcases hor with ht | ht <;> rw [hm.1] at ht <;> cases ht
    rcases List.mem_append.mp ha3 with h | h
    · have hr := mem_detectRateMismatches now subs invoices a h
      refine ⟨fun hor => ?_, fun _ => hr.2⟩
      rcases hor with ht | ht <;> rw [hr.1] at ht <;> cases ht
    · have hq := mem_detectQuantityMismatches now subs invoices a h
      refine ⟨fun hor => ?_, fun _ => hq.2⟩
      rcases hor with ht | ht <;> rw [hq.1] at ht <;> cases ht
  · norm_num [detectUnderbilling, detectUsageOverage, detectMissingInvoices,
      detectRateMismatches, detectQuantityMismatches, foreignSub, foreignInvoice,
      sampleSubscription, sampleInvoice, sampleContract, daysBetween, contractKeys,
      contractKeysAux, calculateSeverity, usageQualifies, List.filterMap_cons,
      eq_false (show InvoiceStatus.sent ≠ InvoiceStatus.void by decide)]
    decide

/-- The rate-mismatch alert produced by the concrete foreign-contract run. -/
def foreignRateAlert : UnderbillingAlert :=
  { id := generateId, contractId := "c-2", customerId := "cust-2"
    atype := .rate_mismatch, expectedAmount := 1200, actualAmount := 500
    difference := 700, period := "INV-1", severity := .low
    detectedAt := 0, resolved := false }

/-- C9 witness: the attribution theorem applied to the concrete
rate-mismatch alert of the foreign-contract run. -/
theorem C9_alert_attribution_witness :
    ∃ s ∈ [foreignSub], foreignRateAlert.contractId = s.contractId
      ∧ foreignRateAlert.customerId = s.customerId :=
  ((C9_alert_attribution 0 sampleContract [foreignInvoice] [foreignSub]).1
      foreignRateAlert
      (by norm_num [detectUnderbilling, detectUsageOverage, detectMissingInvoices,
        detectRateMismatches, detectQuantityMismatches, foreignSub, foreignInvoice,
        sampleSubscription, sampleInvoice, sampleContract, daysBetween, contractKeys,
        contractKeysAux, calculateSeverity, usageQualifies, foreignRateAlert,
        generateId, List.filterMap_cons,
        eq_false (show InvoiceStatus.sent ≠ InvoiceStatus.void by decide)])).2
      (Or.inl rfl)

end ContractIntel

namespace ContractIntel

/-! ## C8 -/

/-- When no registry entry has the id, `resolveAlert` reports false and
leaves the registry unchanged. -/
theorem resolveAlert_not_found (alertId : String) :
    ∀ l : List UnderbillingAlert, (∀ a ∈ l, a.id ≠ alertId) →
      resolveAlert alertId l = (false, l) := by
  intro l
  induction l with
  | nil => intro _; rfl
  | cons x xs ih =>
    intro h
    have hx : x.id ≠ alertId := h x (List.mem_cons_self _ _)
    simp only [resolveAlert, if_neg hx, ih (fun a ha => h a (List.mem_cons_of_mem _ ha))]

/-- When some registry entry has the id, `resolveAlert` reports true, the
updated registry holds a resolved entry with that id, and resolving again
reports true and leaves the registry fixed. -/
theorem resolveAlert_found (alertId : String) :
    ∀ l : List UnderbillingAlert, (∃ a ∈ l, a.id = alertId) →
      (resolveAlert alertId l).1 = true
      ∧ (∃ b ∈ (resolveAlert alertId l).2, b.id = alertId ∧ b.resolved = true)
      ∧ resolveAlert alertId (resolveAlert alertId l).2
          = (true, (resolveAlert alertId l).2) := by
  intro l
  induction l with
  | nil =>
    rintro ⟨a, ha, _⟩
    cases ha
  | cons x xs ih =>
    rintro ⟨a, hax, haid⟩
    by_cases hx : x.id = alertId
    · have h1 : resolveAlert alertId (x :: xs) = (true, { x with resolved := true } :: xs) := by
        simp only [resolveAlert, if_pos hx]
      refine ⟨by rw [h1], ⟨{ x with resolved := true }, ?_, hx, rfl⟩, ?_⟩
      · rw [h1]
        exact List.mem_cons_self _ _
      · rw [h1]
        have hx2 : ({ x with resolved := true } : UnderbillingAlert).id = alertId := hx
        simp only [resolveAlert, if_pos hx2]
    · rcases List.mem_cons.mp hax with rfl | hmem
      · exact absurd haid hx
      · have hrec := ih ⟨a, hmem, haid⟩
        refine ⟨?_, ?_, ?_⟩
        · simp only [resolveAlert, if_neg hx]
          exact hrec.1
        · obtain ⟨b, hb, hbp⟩ := hrec.2.1
          simp only [resolveAlert, if_neg hx]
          exact ⟨b, List.mem_cons_of_mem _ hb, hbp⟩
        · simp only [resolveAlert, if_neg hx, hrec.2.2]

/-- With pairwise-distinct ids, every entry of the updated registry that
carries the resolved id is in fact marked resolved. -/
theorem resolveAlert_resolved_of_id (alertId : String) :
    ∀ l : List UnderbillingAlert,
      List.Pairwise (fun x y => x.id ≠ y.id) l →
      ∀ b ∈ (resolveAlert alertId l).2, b.id = alertId → b.resolved = true := by
  intro l
  induction l with
  | nil =>
    intro _ b hb
    cases hb
  | cons x xs ih =>
    intro hpw b hb hbid
    obtain ⟨hxne, hpwt⟩ := List.pairwise_cons.mp hpw
    by_cases hx : x.id = alertId
    · simp only [resolveAlert, if_pos hx] at hb
      rcases List.mem_cons.mp hb with rfl | hmem
      · rfl
      · exact absurd (hx.trans hbid.symm) (hxne b hmem)
    · simp only [resolveAlert, if_neg hx] at hb
      rcases List.mem_cons.mp hb with rfl | hmem
      · exact absurd hbid hx
      · exact ih hpwt b hmem hbid

/-- C8: `resolveAlert` returns false and leaves the registry unchanged when
no alert has the id; when an alert with the id exists it returns true, marks
such an alert resolved (so, with the ids pairwise distinct as generated,
`getUnresolvedAlerts` no longer returns that id), and resolving the same id
again still returns true without changing the registry. -/
theorem C8_resolveAlert_spec (alertId : String) (l : List UnderbillingAlert) :
    ((∀ a ∈ l, a.id ≠ alertId) → resolveAlert alertId l = (false, l))
    ∧ (∀ a ∈ l, a.id = alertId →
        (resolveAlert alertId l).1 = true
        ∧ (∃ b ∈ (resolveAlert alertId l).2, b.id = alertId ∧ b.resolved = true)
        ∧ (List.Pairwise (fun x y => x.id ≠ y.id) l →
            ∀ b ∈ getUnresolvedAlerts (resolveAlert alertId l).2, b.id ≠ alertId)
        ∧ resolveAlert alertId (resolveAlert alertId l).2
            = (true, (resolveAlert alertId l).2)) := by
  refine ⟨resolveAlert_not_found alertId l, ?_⟩
  intro a ha haid
  have hfound := resolveAlert_found alertId l ⟨a, ha, haid⟩
  refine ⟨hfound.1, hfound.2.1, ?_, hfound.2.2⟩
  intro hpw b hb hbid
  have hbmem : b ∈ (resolveAlert alertId l).2 := (List.mem_filter.mp hb).1
  have hbunres : ¬b.resolved = true := by
    have := (List.mem_filter.mp hb).2
    simp only [getUnresolvedAlerts] at this ⊢
    simp_all
  exact hbunres (resolveAlert_resolved_of_id alertId l hpw b hbmem hbid)

/-- Concrete registry entries for the C8 witness. -/
def alertA : UnderbillingAlert := { foreignRateAlert with id := "a1" }

def alertB : UnderbillingAlert := { foreignRateAlert with id := "b1" }

/-- C8 witness: on the two-entry registry, a missing id reports false and
leaves the registry unchanged; resolving "a1" reports true, and resolving it
again still reports true. -/
theorem C8_resolveAlert_spec_witness :
    resolveAlert "zz" [alertA, alertB] = (false, [alertA, alertB])
    ∧ (resolveAlert "a1" [alertA, alertB]).1 = true
    ∧ (resolveAlert "a1" (resolveAlert "a1" [alertA, alertB]).2).1 = true :=
  ⟨(C8_resolveAlert_spec "zz" [alertA, alertB]).1 (by decide),
   ((C8_resolveAlert_spec "a1" [alertA, alertB]).2 alertA (by decide) rfl).1,
   by
    rw [((C8_resolveAlert_spec "a1" [alertA, alertB]).2 alertA (by decide) rfl).2.2.2]⟩

end ContractIntel

namespace ContractIntel

/-! ## C2 and C5 -/

/-- Any risk emitted through the gate has at least two indicators, a score
in `[0,100]` (given a nonnegative accumulated score), the clock as
`flaggedAt` and initial status `new`. -/
theorem gateRisk_invariants (now : Int) (c : Contract) (rt : RiskType)
    (score : Int) (inds : List RiskIndicator) (r : RenewalRisk)
    (h : gateRisk now c rt score inds = some r) (hscore : 0 ≤ score) :
    2 ≤ r.indicators.length ∧ 0 ≤ r.riskScore ∧ r.riskScore ≤ 100
      ∧ r.flaggedAt = now ∧ r.status = RiskStatus.new := by
  unfold gateRisk at h
  split_ifs at h with hlen
  · simp only [Option.some.injEq] at h
    subst h
    exact ⟨hlen, le_min hscore (by norm_num), min_le_right _ _, rfl, rfl⟩

theorem detectChurnRisk_invariants (now : Int) (c : Contract)
    (hs : RenewalHealthScore) (invoices : List Invoice) (r : RenewalRisk)
    (h : detectChurnRisk now c hs invoices = some r) :
    2 ≤ r.indicators.length ∧ 0 ≤ r.riskScore ∧ r.riskScore ≤ 100
      ∧ r.flaggedAt = now ∧ r.status = RiskStatus.new := by
  unfold detectChurnRisk at h
  dsimp only at h
  refine gateRisk_invariants _ _ _ _ _ _ h ?_
  split_ifs <;> norm_num

theorem detectDowngradeRisk_invariants (now : Int) (c : Contract)
    (hs : RenewalHealthScore) (r : RenewalRisk)
    (h : detectDowngradeRisk now c hs = some r) :
    2 ≤ r.indicators.length ∧ 0 ≤ r.riskScore ∧ r.riskScore ≤ 100
      ∧ r.flaggedAt = now ∧ r.status = RiskStatus.new := by
  unfold detectDowngradeRisk at h
  dsimp only at h
  refine gateRisk_invariants _ _ _ _ _ _ h ?_
  split_ifs <;> norm_num

theorem detectLateRenewalRisk_invariants (now : Int) (c : Contract)
    (invoices : List Invoice) (r : RenewalRisk)
    (h : detectLateRenewalRisk now c invoices = some r) :
    2 ≤ r.indicators.length ∧ 0 ≤ r.riskScore ∧ r.riskScore ≤ 100
      ∧ r.flaggedAt = now ∧ r.status = RiskStatus.new := by
  unfold detectLateRenewalRisk at h
  dsimp only at h
  refine gateRisk_invariants _ _ _ _ _ _ h ?_
  split_ifs <;> norm_num

theorem detectPriceSensitivityRisk_invariants (now : Int) (c : Contract)
    (invoices : List Invoice) (r : RenewalRisk)
    (h : detectPriceSensitivityRisk now c invoices = some r) :
    2 ≤ r.indicators.length ∧ 0 ≤ r.riskScore ∧ r.riskScore ≤ 100
      ∧ r.flaggedAt = now ∧ r.status = RiskStatus.new := by
  unfold detectPriceSensitivityRisk at h
  dsimp only at h
  refine gateRisk_invariants _ _ _ _ _ _ h ?_
  split_ifs <;> norm_num

/-- C5: every risk returned by `analyzeRenewalRisks` carries at least two
triggered indicators, a risk score within `[0,100]`, `flaggedAt` equal to
the analysis clock, and the initial status `new` (a detector with fewer
than two triggered indicators emits nothing, so nothing else ever reaches
the registry). -/
theorem C5_risk_invariants (now : Int) (c : Contract)
    (hs : RenewalHealthScore) (invoices : List Invoice) :
    ∀ r ∈ analyzeRenewalRisks now c hs invoices,
      2 ≤ r.indicators.length ∧ 0 ≤ r.riskScore ∧ r.riskScore ≤ 100
        ∧ r.flaggedAt = now ∧ r.status = RiskStatus.new := by
  intro r hr
  rw [analyzeRenewalRisks, List.append_assoc, List.append_assoc] at hr
  rcases List.mem_append.mp hr with h | hr2
  · cases hopt : detectChurnRisk now c hs invoices with
    | none => rw [hopt] at h; cases h
    | some r0 =>
      rw [hopt, Option.toList_some, List.mem_singleton] at h
      subst h
      exact detectChurnRisk_invariants now c hs invoices r hopt
  rcases List.mem_append.mp hr2 with h | hr3
  · cases hopt : detectDowngradeRisk now c hs with
    | none => rw [hopt] at h; cases h
    | some r0 =>
      rw [hopt, Option.toList_some, List.mem_singleton] at h
      subst h
      exact detectDowngradeRisk_invariants now c hs r hopt
  rcases List.mem_append.mp hr3 with h | h
  · cases hopt : detectLateRenewalRisk now c invoices with
    | none => rw [hopt] at h; cases h
    | some r0 =>
      rw [hopt, Option.toList_some, List.mem_singleton] at h
      subst h
      exact detectLateRenewalRisk_invariants now c invoices r hopt
  · cases hopt : detectPriceSensitivityRisk now c invoices with
    | none => rw [hopt] at h; cases h
    | some r0 =>
      rw [hopt, Option.toList_some, List.mem_singleton] at h
      subst h
      exact detectPriceSensitivityRisk_invariants now c invoices r hopt

end ContractIntel

namespace ContractIntel

/-- C2: with at least three overdue invoices and a previously computed
health score that is critical (hence below the critical threshold 40) and
carries at least two negative factors, risk analysis always returns a churn
risk, and its risk score is at least 70 (indicators (a), (b), (d), (e)
alone already cap the score at 100). -/
theorem C2_churn_guaranteed (now : Int) (c : Contract)
    (hs : RenewalHealthScore) (invoices : List Invoice)
    (hover : 3 ≤ (invoices.filter (fun inv => inv.status = InvoiceStatus.overdue)).length)
    (hcrit : hs.riskLevel = RiskLevel.critical)
    (hscore : hs.score < criticalThreshold)
    (hneg : 2 ≤ (hs.factors.filter (fun f => f.impact = Impact.negative)).length) :
    ∃ r ∈ analyzeRenewalRisks now c hs invoices,
      r.riskType = RiskType.churn ∧ 70 ≤ r.riskScore := by
  have hc1 : hs.score ≤ healthScoreChurnRisk := by
    simp only [criticalThreshold] at hscore
    simp only [healthScoreChurnRisk]
    omega
  have hc2 : overdueInvoicesChurnRisk
      ≤ (invoices.filter (fun inv => inv.status = InvoiceStatus.overdue)).length := by
    simpa [overdueInvoicesChurnRisk] using hover
  have hdet : ∃ r, detectChurnRisk now c hs invoices = some r
      ∧ r.riskType = RiskType.churn ∧ 70 ≤ r.riskScore := by
    unfold detectChurnRisk
    dsimp only
    simp only [if_pos hc1, if_pos hc2, if_pos hcrit, if_pos hneg]
    by_cases h3 : overdueAmountChurnRisk
        ≤ ((invoices.filter (fun inv => inv.status = InvoiceStatus.overdue)).map
            (fun inv => inv.amount)).sum
    · simp only [if_pos h3]
      unfold gateRisk
      rw [if_pos (by simp)]
      exact ⟨_, rfl, rfl, by norm_num [min_def]⟩
    · simp only [if_neg h3]
      unfold gateRisk
      rw [if_pos (by simp)]
      exact ⟨_, rfl, rfl, by norm_num [min_def]⟩
  obtain ⟨r, hr, hty, h70⟩ := hdet
  exact ⟨r, by simp [analyzeRenewalRisks, hr], hty, h70⟩

/-- A negative-impact scoring factor for the concrete health-score input. -/
def negativeFactor1 : ScoreFactor :=
  { name := "Invoice Status", weight := 1, value := 20, impact := .negative }

def negativeFactor2 : ScoreFactor :=
  { name := "Usage Trend", weight := 1, value := 20, impact := .negative }

/-- A previously computed critical health score with two negative factors. -/
def criticalHealthScore : RenewalHealthScore :=
  { contractId := "c-1", customerId := "cust-1", score := 30
    riskLevel := .critical, factors := [negativeFactor1, negativeFactor2]
    calculatedAt := 0 }

/-- Three overdue invoices on the sample contract. -/
def overdueInvoices3 : List Invoice :=
  [sampleInvoice, { sampleInvoice with id := "inv-2" },
   { sampleInvoice with id := "inv-3" }]

/-- C2 witness: the guaranteed-churn theorem at the concrete critical
health score and three overdue invoices. -/
theorem C2_churn_guaranteed_witness :
    ∃ r ∈ analyzeRenewalRisks 0 sampleContract criticalHealthScore overdueInvoices3,
      r.riskType = RiskType.churn ∧ 70 ≤ r.riskScore :=
  C2_churn_guaranteed 0 sampleContract criticalHealthScore overdueInvoices3
    (by decide) rfl (by decide) (by decide)

end ContractIntel

namespace ContractIntel

/-- The churn risk produced by the concrete critical-score run. -/
def churnRiskSample : RenewalRisk :=
  { id := generateId, contractId := "c-1", customerId := "cust-1"
    riskType := .churn, riskScore := 100
    indicators :=
      [{ name := "Low Health Score", value := .num 30, threshold := .num 40
         exceeded := true },
       { name := "Multiple Overdue Invoices", value := .num 3, threshold := .num 3
         exceeded := true },
       { name := "High Overdue Amount", value := .num 15000, threshold := .num 5000
         exceeded := true },
       { name := "Critical Risk Level", value := .str "CRITICAL"
         threshold := .str "HIGH or below", exceeded := true },
       { name := "Multiple Negative Factors", value := .num 2, threshold := .num 2
         exceeded := true }]
    flaggedAt := 0, status := .new }

/-- C5 witness: the invariants theorem applied to the concrete churn risk
emitted by the critical-score run. -/
theorem C5_risk_invariants_witness :
    2 ≤ churnRiskSample.indicators.length ∧ 0 ≤ churnRiskSample.riskScore
      ∧ churnRiskSample.riskScore ≤ 100 ∧ churnRiskSample.flaggedAt = 0
      ∧ churnRiskSample.status = RiskStatus.new :=
  C5_risk_invariants 0 sampleContract criticalHealthScore overdueInvoices3
    churnRiskSample
    (by norm_num [analyzeRenewalRisks, detectChurnRisk, detectDowngradeRisk,
      detectLateRenewalRisk, detectPriceSensitivityRisk, gateRisk, daysBetween,
      isWithinDays, healthScoreChurnRisk, healthScoreDowngradeRisk,
      overdueInvoicesChurnRisk, overdueAmountChurnRisk, daysUntilRenewalUrgent,
      daysUntilRenewalSoon, sampleContract, criticalHealthScore, overdueInvoices3,
      sampleInvoice, negativeFactor1, negativeFactor2, churnRiskSample, generateId,
      min_def, List.find?])

end ContractIntel
